import Mathlib

/-!
Shallow embedding of the novelty-detection and delivery pipeline of the
repository's two scripts, `bot.py` and `my_rss_telegram.py`.

Modelling conventions:
* `datetime` values are natural numbers (a total order is all the code uses);
  a parsed feed date additionally carries the year component, because
  `my_rss_telegram.py`'s `has_valid_date` inspects `published_parsed[0]`.
* A feed entry's send outcome at the sink (`send_to_telegram` returning
  `True`/`False`) is recorded in the entry itself (`sendOk`), since the sink
  is an external collaborator whose answer the code only branches on.
* Side effects are made explicit: the dispatch loops return the final cursor
  state, the number of items sent, and a trace of `Act`s (sends, cursor
  commits, sleeps) in program order.  `save_dates` runs right after every
  cursor mutation in both scripts, so the in-memory cursor state coincides
  with the persisted one at every step boundary.
-/

/-- A parsed feed date (`published_parsed` / `updated_parsed`): the year
component (index 0 of the struct time, checked by `has_valid_date`) together
with the full timestamp used for all comparisons. -/
structure FeedDate where
  year : Nat
  ts : Nat
deriving DecidableEq

/-- One feed entry, as the two scripts consume it: a link (empty string when
the `link` attribute is missing, matching `getattr(entry, 'link', '')`), a
title, the optional structured date fields, whether a plausible string date
field is present (`my_rss_telegram.py`'s `has_valid_date`, way 2), and the
sink's answer when this entry is sent. -/
structure Entry where
  link : String
  title : String
  published_parsed : Option FeedDate := none
  updated_parsed : Option FeedDate := none
  dateStringValid : Bool := false
  sendOk : Bool := true
deriving DecidableEq

/-- `my_rss_telegram.py` `has_valid_date` (lines 205-237): a structured date
with a realistic year (2000..2030), or a date-looking string field. -/
def has_valid_date (e : Entry) : Bool :=
  (match e.published_parsed with
   | some d => decide (2000 ≤ d.year) && decide (d.year ≤ 2030)
   | none => false)
  || (match e.updated_parsed with
      | some d => decide (2000 ≤ d.year) && decide (d.year ≤ 2030)
      | none => false)
  || e.dateStringValid

/-- `bot.py` `get_entry_date` (lines 285-289): the published date if present,
else the time of observation. -/
def botEntryDate (e : Entry) (now : Nat) : Nat :=
  match e.published_parsed with
  | some d => d.ts
  | none => now

/-- `my_rss_telegram.py` date extraction inside the new-entries loop
(lines 512-517): `published_parsed`, else `updated_parsed`, else skip. -/
def entryDateMyRss (e : Entry) : Option Nat :=
  match e.published_parsed with
  | some d => some d.ts
  | none =>
    match e.updated_parsed with
    | some d => some d.ts
    | none => none

/-- `my_rss_telegram.py` lines 474-481: the date of the freshest entry used
to initialize a new feed, falling back to the current time. -/
def latestDate (e : Entry) (now : Nat) : Nat :=
  (entryDateMyRss e).getD now

/-- Insert a dated entry into a list, keeping ascending timestamps
(the comparison both scripts use in `new_entries.sort(key=lambda x: x[1])`). -/
def insertTs (p : Entry × Nat) : List (Entry × Nat) → List (Entry × Nat)
  | [] => [p]
  | q :: qs => if p.2 ≤ q.2 then p :: q :: qs else q :: insertTs p qs

/-- Ascending sort by timestamp, modelling `new_entries.sort(key=lambda x: x[1])`. -/
def sortByTs : List (Entry × Nat) → List (Entry × Nat)
  | [] => []
  | p :: ps => insertTs p (sortByTs ps)

/-- `my_rss_telegram.py` lines 508-527: collect the entries with a valid
date whose date is strictly newer than `last_date`, then sort ascending. -/
def myRssDetect (entries : List Entry) (lastDate : Nat) : List (Entry × Nat) :=
  sortByTs (entries.filterMap fun e =>
    if has_valid_date e then
      match entryDateMyRss e with
      | some pd => if lastDate < pd then some (e, pd) else none
      | none => none
    else none)

/-- `bot.py` lines 315-323: collect the entries whose date is strictly newer
than the threshold (the cursor, or `now - MAX_HOURS_BACK` when cursorless),
then sort ascending. -/
def botDetect (entries : List Entry) (threshold now : Nat) : List (Entry × Nat) :=
  sortByTs (entries.filterMap fun e =>
    let d := botEntryDate e now
    if threshold < d then some (e, d) else none)

/-- Observable actions of the dispatch loops, in program order. -/
inductive Act where
  | send (e : Entry)
  | commit (ts : Nat)
  | sleepFixed (secs : Nat)
  | sleepUniform (lo hi : Nat)
deriving DecidableEq

/-- The per-source record that `my_rss_telegram.py` keeps in `dates.json`:
`last_date` and `error_count`. -/
structure CursorRec where
  last_date : Nat
  error_count : Nat
deriving DecidableEq

/-- `my_rss_telegram.py` lines 530-548: dispatch the sorted new entries.  On a
successful send the cursor is set to the item's date with `error_count` 0,
saved, and a fixed `time.sleep(10)` follows; on a failed send the loop simply
moves on to the next entry (there is no `break` and no `else`). -/
def myRssDispatch : List (Entry × Nat) → CursorRec → CursorRec × Nat × List Act
  | [], c => (c, 0, [])
  | (e, pd) :: rest, c =>
    if e.sendOk then
      let r := myRssDispatch rest ⟨pd, 0⟩
      (r.1, r.2.1 + 1, .send e :: .commit pd :: .sleepFixed 10 :: r.2.2)
    else
      let r := myRssDispatch rest c
      (r.1, r.2.1, .send e :: r.2.2)

/-- `bot.py` lines 325-340: dispatch the sorted new entries.  An entry with an
empty link is skipped with `continue`; a successful `send_to_telegram` call
sleeps `random.uniform(15, 25)` internally before returning `True`
(lines 187, 211), after which the caller commits `pub_date` and saves; a
failed send hits `break`, ending the source's loop. -/
def botDispatch : List (Entry × Nat) → Option Nat → Option Nat × Nat × List Act
  | [], st => (st, 0, [])
  | (e, pd) :: rest, st =>
    if e.link = "" then botDispatch rest st
    else if e.sendOk then
      let r := botDispatch rest (some pd)
      (r.1, r.2.1 + 1, .send e :: .sleepUniform 15 25 :: .commit pd :: r.2.2)
    else (st, 0, [.send e])

/-- `bot.py` lines 306-340, one source of `check_feeds`: the detection
threshold is the cursor when present, else `now` minus the configured
window (`MAX_HOURS_BACK`, in the same time unit), and the detected entries
are dispatched in order. -/
def botProcessFeed (st : Option Nat) (entries : List Entry) (now window : Nat) :
    Option Nat × Nat × List Act :=
  botDispatch (botDetect entries (st.getD (now - window)) now) st

/-- The timestamps committed to the cursor store along an action trace. -/
def commitsOf : List Act → List Nat
  | [] => []
  | .commit t :: r => t :: commitsOf r
  | .send _ :: r => commitsOf r
  | .sleepFixed _ :: r => commitsOf r
  | .sleepUniform _ _ :: r => commitsOf r

/-- Recognizes a fixed-duration sleep in a trace. -/
def isFixedSleep : Act → Bool
  | .sleepFixed _ => true
  | _ => false

/-- Recognizes a uniform-random sleep in a trace. -/
def isUniformSleep : Act → Bool
  | .sleepUniform _ _ => true
  | _ => false

/-- What `my_rss_telegram.py`'s `check_feeds` observes for one source in one
cycle: `parse_feed_with_fallback` returned `None` (`fetchFail`), an exception
was classified "skip" or "error" by `handle_request_error` (`exnSkip`,
`exnError`), or a feed object with its entry list was obtained (`feedOk`). -/
inductive SourceEvent where
  | fetchFail
  | exnSkip
  | exnError
  | feedOk (entries : List Entry)

/-- One source's state transition in `my_rss_telegram.py` `check_feeds`
(lines 407-588), returning the new `dates` record for the source and the
number of items sent:
* fetch failure / network exception (lines 422-435, 568-585): bump
  `error_count` (creating a record with `last_date = now` if absent), and
  delete the record once the count reaches 3;
* "skip"-classified exception (lines 564-567): leave everything untouched;
* empty feed (lines 441-450) or first entry without a valid date
  (lines 452-471): delete the record;
* cursorless feed (lines 484-503): send the single freshest entry and, only
  on success, create the record at `latestDate`;
* tracked feed (lines 505-556): detect, dispatch, and reset `error_count`
  to 0 (line 555). -/
def myRssStep (st : Option CursorRec) (ev : SourceEvent) (now : Nat) :
    Option CursorRec × Nat :=
  match ev with
  | .fetchFail | .exnError =>
    let ec := (match st with | some c => c.error_count | none => 0) + 1
    if 3 ≤ ec then (none, 0)
    else (some ⟨(match st with | some c => c.last_date | none => now), ec⟩, 0)
  | .exnSkip => (st, 0)
  | .feedOk [] => (none, 0)
  | .feedOk (e0 :: rest) =>
    if has_valid_date e0 then
      match st with
      | none => if e0.sendOk then (some ⟨latestDate e0 now, 0⟩, 1) else (none, 0)
      | some c =>
        let r := myRssDispatch (myRssDetect (e0 :: rest) c.last_date) c
        (some ⟨r.1.last_date, 0⟩, r.2.1)
    else (none, 0)

/-- A sequence of cycles for one source in `my_rss_telegram.py`: fold
`myRssStep` over the observed events, accumulating the sent count.  The state
is saved to `dates.json` after every mutation, so this is also the persisted
state at every step boundary (a restart reloads exactly it). -/
def myRssRun : Option CursorRec → List SourceEvent → Nat → Option CursorRec × Nat
  | st, [], _ => (st, 0)
  | st, ev :: rest, now =>
    let r := myRssStep st ev now
    let r2 := myRssRun r.1 rest now
    (r2.1, r.2 + r2.2)

/-- `bot.py` `parse_feed` (lines 274-283): the single retrieval attempt either
raises (`none` input) or yields an entry list; the function returns the feed
only if the list is non-empty, else `None`. -/
def parse_feed (fetched : Option (List Entry)) : Option (List Entry) :=
  match fetched with
  | none => none
  | some l => if l.isEmpty then none else some l

/-- The encoding-fallback loop of `my_rss_telegram.py`
`parse_feed_with_fallback` (lines 272-286): each applicable site encoding is
tried in order; an attempt that raises (`none`) is skipped leaving `feed`
unchanged, an attempt that parses to a non-empty list ends the loop, and an
attempt that parses to an empty list replaces `feed` and the loop goes on. -/
def encLoop : List Entry → List (Option (List Entry)) → List Entry
  | feed, [] => feed
  | feed, none :: rest => encLoop feed rest
  | _, some f :: rest => if f.isEmpty then encLoop f rest else f

/-- `my_rss_telegram.py` `parse_feed_with_fallback` (lines 264-291): the plain
`feedparser.parse` attempt `s1` is kept when non-empty; otherwise the
applicable encoding attempts run.  (`feedparser.parse` reports its own
failures through the `bozo` flag and an empty entry list rather than by
raising, so the first attempt is modelled as a plain list.) -/
def parse_feed_with_fallback (s1 : List Entry) (encs : List (Option (List Entry))) :
    List Entry :=
  if s1.isEmpty then encLoop s1 encs else s1

/-- First applicable encoding attempt that yields a non-empty list, if any. -/
def encsFirst : List (Option (List Entry)) → Option (List Entry)
  | [] => none
  | none :: rest => encsFirst rest
  | some f :: rest => if f.isEmpty then encsFirst rest else some f

/-- Modelled from the spec: "the first successful strategy's result is
returned", where a strategy succeeds when it independently produces a
parseable, non-empty item list (spec section 4.1). -/
def specFirstSuccess (s1 : List Entry) (encs : List (Option (List Entry))) :
    Option (List Entry) :=
  if s1.isEmpty then encsFirst encs else some s1

/-- Modelled from the spec: the novelty rule of spec section 4.3 — new iff
strictly newer than the cursor, or equal timestamp with a different
identity. -/
def specIsNew (cursorTs : Nat) (cursorId : String) (itemTs : Nat) (itemId : String) :
    Bool :=
  decide (cursorTs < itemTs) || (decide (itemTs = cursorTs) && decide (¬ itemId = cursorId))

/-! Concrete entries used by the witnesses and counterexamples below. -/

/-- An entry whose timestamp equals a cursor timestamp of 100 but whose
identity (link) differs from the cursor identity. -/
def entryTie : Entry := { link := "b", title := "B", published_parsed := some ⟨2024, 100⟩ }

/-- An entry dated 50. -/
def entryFresh : Entry := { link := "f", title := "F", published_parsed := some ⟨2024, 50⟩ }

/-- An entry dated 1000. -/
def entryOld : Entry := { link := "o", title := "O", published_parsed := some ⟨2024, 1000⟩ }

/-- An entry dated 5 whose send fails at the sink. -/
def entryFailS : Entry :=
  { link := "x", title := "X", published_parsed := some ⟨2024, 5⟩, sendOk := false }

/-- An entry dated 6 whose send succeeds. -/
def entryOkS : Entry := { link := "y", title := "Y", published_parsed := some ⟨2024, 6⟩ }

/-- An entry dated 5 with a missing link attribute. -/
def entryNoLink : Entry := { link := "", title := "N", published_parsed := some ⟨2024, 5⟩ }

/-! Helper lemmas about the timestamp sort. -/

theorem mem_insertTs {a p : Entry × Nat} {l : List (Entry × Nat)} :
    a ∈ insertTs p l ↔ a = p ∨ a ∈ l := by
  induction l with
  | nil => simp [insertTs]
  | cons q qs ih =>
    by_cases h : p.2 ≤ q.2
    · simp [insertTs, h]
    · simp only [insertTs, if_neg h, List.mem_cons, ih]
      tauto

theorem chain'_insertTs {p : Entry × Nat} {l : List (Entry × Nat)}
    (hl : List.Chain' (fun a b => a.2 ≤ b.2) l) :
    List.Chain' (fun a b => a.2 ≤ b.2) (insertTs p l) := by
  induction l with
  | nil => simp [insertTs]
  | cons q qs ih =>
    by_cases h : p.2 ≤ q.2
    · rw [insertTs, if_pos h]
      exact List.chain'_cons.mpr ⟨h, hl⟩
    · rw [insertTs, if_neg h]
      rcases List.chain'_cons'.mp hl with ⟨hq, hqs⟩
      refine List.chain'_cons'.mpr ⟨?_, ih hqs⟩
      intro b hb
      cases qs with
      | nil =>
        simp [insertTs] at hb
        subst hb
        exact le_of_not_le h
      | cons q' qs' =>
        by_cases h' : p.2 ≤ q'.2
        · simp [insertTs, h'] at hb
          subst hb
          exact le_of_not_le h
        · simp [insertTs, h'] at hb
          subst hb
          exact hq q' rfl

theorem chain'_sortByTs (l : List (Entry × Nat)) :
    List.Chain' (fun a b => a.2 ≤ b.2) (sortByTs l) := by
  induction l with
  | nil => simp [sortByTs]
  | cons p ps ih => exact chain'_insertTs ih

theorem mem_sortByTs {a : Entry × Nat} {l : List (Entry × Nat)} :
    a ∈ sortByTs l ↔ a ∈ l := by
  induction l with
  | nil => simp [sortByTs]
  | cons p ps ih => simp [sortByTs, mem_insertTs, ih]

instance : IsTrans (Entry × Nat) (fun a b => a.2 ≤ b.2) :=
  ⟨fun _ _ _ h1 h2 => le_trans h1 h2⟩

theorem pairwise_sortByTs (l : List (Entry × Nat)) :
    List.Pairwise (fun a b => a.2 ≤ b.2) (sortByTs l) :=
  List.chain'_iff_pairwise.mp (chain'_sortByTs l)

/-! Helper lemmas characterizing the two novelty detectors. -/

theorem mem_myRssDetect {entries : List Entry} {lastDate : Nat} {e : Entry} {pd : Nat} :
    (e, pd) ∈ myRssDetect entries lastDate ↔
      e ∈ entries ∧ has_valid_date e = true ∧ entryDateMyRss e = some pd ∧
        lastDate < pd := by
  rw [myRssDetect, mem_sortByTs, List.mem_filterMap]
  constructor
  · rintro ⟨a, ha, hfa⟩
    by_cases hv : has_valid_date a
    · cases hd : entryDateMyRss a with
      | none => simp [hv, hd] at hfa
      | some pda =>
        by_cases hlt : lastDate < pda
        · simp [hv, hd, hlt] at hfa
          obtain ⟨rfl, rfl⟩ := hfa
          exact ⟨ha, hv, hd, hlt⟩
        · simp [hv, hd, hlt] at hfa
    · simp [hv] at hfa
  · rintro ⟨he, hv, hd, hlt⟩
    exact ⟨e, he, by simp [hv, hd, hlt]⟩

theorem mem_botDetect {entries : List Entry} {threshold now : Nat} {e : Entry} {pd : Nat} :
    (e, pd) ∈ botDetect entries threshold now ↔
      e ∈ entries ∧ pd = botEntryDate e now ∧ threshold < pd := by
  rw [botDetect, mem_sortByTs, List.mem_filterMap]
  constructor
  · rintro ⟨a, ha, hfa⟩
    by_cases hlt : threshold < botEntryDate a now
    · simp [hlt] at hfa
      obtain ⟨rfl, rfl⟩ := hfa
      exact ⟨ha, rfl, hlt⟩
    · simp [hlt] at hfa
  · rintro ⟨he, hd, hlt⟩
    subst hd
    exact ⟨e, he, by simp [hlt]⟩

/-! Helper lemma: committed timestamps along a dispatch of ascending entries
that all dominate the current cursor form a non-decreasing chain. -/

theorem myRssDispatch_commits_chain (l : List (Entry × Nat)) :
    ∀ c : CursorRec, List.Pairwise (fun a b => a.2 ≤ b.2) l →
      (∀ p ∈ l, c.last_date ≤ p.2) →
      List.Chain' (fun x y : Nat => x ≤ y)
        (c.last_date :: commitsOf (myRssDispatch l c).2.2) := by
  induction l with
  | nil => intro c _ _; simp [myRssDispatch, commitsOf]
  | cons p rest ih =>
    intro c hp hb
    obtain ⟨e, pd⟩ := p
    rcases List.pairwise_cons.mp hp with ⟨hhead, htail⟩
    by_cases hs : e.sendOk
    · have hrec := ih ⟨pd, 0⟩ htail (fun q hq => hhead q hq)
      have hcp : c.last_date ≤ pd := hb (e, pd) (List.mem_cons_self _ _)
      simp only [myRssDispatch, hs, if_true, commitsOf]
      exact List.chain'_cons.mpr ⟨hcp, hrec⟩
    · have hrec := ih c htail (fun q hq => hb q (List.mem_cons_of_mem _ hq))
      simpa only [myRssDispatch, hs, if_false, Bool.false_eq_true, commitsOf] using hrec

/-! Helper lemmas about the encoding-fallback loop. -/

theorem encLoop_of_encsFirst_some {encs : List (Option (List Entry))} {l : List Entry}
    (h : encsFirst encs = some l) : encLoop [] encs = l ∧ l ≠ [] := by
  induction encs with
  | nil => simp [encsFirst] at h
  | cons o rest ih =>
    cases o with
    | none =>
      rw [encsFirst] at h
      rw [encLoop]
      exact ih h
    | some f =>
      by_cases hf : f.isEmpty
      · rw [encsFirst, if_pos hf] at h
        rw [encLoop, if_pos hf, List.isEmpty_iff.mp hf]
        exact ih h
      · rw [encsFirst, if_neg hf] at h
        injection h with h
        subst h
        exact ⟨by rw [encLoop, if_neg hf], fun hnil => hf (by simp [hnil])⟩

theorem encLoop_of_encsFirst_none {encs : List (Option (List Entry))}
    (h : encsFirst encs = none) : encLoop [] encs = [] := by
  induction encs with
  | nil => rfl
  | cons o rest ih =>
    cases o with
    | none =>
      rw [encsFirst] at h
      rw [encLoop]
      exact ih h
    | some f =>
      by_cases hf : f.isEmpty
      · rw [encsFirst, if_pos hf] at h
        rw [encLoop, if_pos hf, List.isEmpty_iff.mp hf]
        exact ih h
      · rw [encsFirst, if_neg hf] at h
        exact absurd h (by simp)

theorem encsFirst_eq_none_iff {encs : List (Option (List Entry))} :
    encsFirst encs = none ↔ ∀ o ∈ encs, ∀ l, o = some l → l = [] := by
  induction encs with
  | nil => simp [encsFirst]
  | cons o rest ih =>
    cases o with
    | none => simp [encsFirst, ih]
    | some f =>
      by_cases hf : f.isEmpty
      · rw [encsFirst, if_pos hf]
        simp only [List.mem_cons, ih]
        constructor
        · rintro hall o (rfl | ho) l hl
          · injection hl with hl; subst hl; exact List.isEmpty_iff.mp hf
          · exact hall o ho l hl
        · intro hall o ho l hl
          exact hall o (Or.inr ho) l hl
      · rw [encsFirst, if_neg hf]
        constructor
        · intro h
          exact absurd h (by simp)
        · intro hall
          have hnil : f = [] := hall (some f) (List.mem_cons_self _ _) f rfl
          subst hnil
          simp at hf

/-! The claims. -/

/-- C1 counterexample: an item whose timestamp equals the cursor's
`last_date` (100) but whose identity differs from the cursor's is classified
as not-new by both scripts' detectors, while the spec's tie-break rule
(`specIsNew`, with cursor identity "a" and item identity "b") classifies it
as new.  Neither script stores any identity in the cursor, so the claimed
tie-break cannot and does not happen. -/
theorem c1_tie_break_counterexample :
    myRssDetect [entryTie] 100 = [] ∧ botDetect [entryTie] 100 500 = [] ∧
      specIsNew 100 "a" 100 "b" = true := by
  refine ⟨?_, ?_, by decide⟩ <;> decide

/-- C1 amended: with a present cursor, an item is classified as new iff its
timestamp is strictly greater than the cursor's `last_date` (and, in
`my_rss_telegram.py`, it has a valid extractable date); an item whose
timestamp merely equals the cursor's is never treated as new, whatever its
identity, because the cursor stores no identity. -/
theorem c1_strict_timestamp_novelty :
    ∀ (entries : List Entry) (lastDate threshold now : Nat) (e : Entry) (pd : Nat),
      ((e, pd) ∈ myRssDetect entries lastDate ↔
        e ∈ entries ∧ has_valid_date e = true ∧ entryDateMyRss e = some pd ∧
          lastDate < pd) ∧
      ((e, pd) ∈ botDetect entries threshold now ↔
        e ∈ entries ∧ pd = botEntryDate e now ∧ threshold < pd) :=
  fun _ _ _ _ _ _ => ⟨mem_myRssDetect, mem_botDetect⟩

/-- C2 counterexample: in `my_rss_telegram.py`'s dispatch loop the first
item's send fails, yet the second item is still dispatched, committed
(`commit 6` appears in the trace) and counted — the loop body has no `break`
on failure, so processing does not stop at the failed item. -/
theorem c2_no_skip_counterexample :
    myRssDispatch [(entryFailS, 5), (entryOkS, 6)] ⟨1, 0⟩ =
      (⟨6, 0⟩, 1, [.send entryFailS, .send entryOkS, .commit 6, .sleepFixed 10]) := by
  decide

/-- C2 amended: in `bot.py` a failed send of an item with a link ends the
source's loop with the state unchanged and nothing further dispatched or
committed; in `my_rss_telegram.py`, however, a failed send is skipped and the
loop continues with the remaining items exactly as if the failed item had
only been sent and forgotten. -/
theorem c2_failure_stops_bot_not_myrss :
    (∀ (e : Entry) (pd : Nat) (rest : List (Entry × Nat)) (st : Option Nat),
      e.link ≠ "" → e.sendOk = false →
        botDispatch ((e, pd) :: rest) st = (st, 0, [.send e])) ∧
    (∀ (e : Entry) (pd : Nat) (rest : List (Entry × Nat)) (c : CursorRec),
      e.sendOk = false →
        myRssDispatch ((e, pd) :: rest) c =
          ((myRssDispatch rest c).1, (myRssDispatch rest c).2.1,
            .send e :: (myRssDispatch rest c).2.2)) := by
  constructor
  · intro e pd rest st h1 h2
    simp [botDispatch, h1, h2]
  · intro e pd rest c h
    simp [myRssDispatch, h]

/-- Witness for the C2 amended theorem at concrete inputs. -/
theorem c2_failure_stops_bot_not_myrss_witness :
    botDispatch [(entryFailS, 5), (entryOkS, 6)] (some 1) =
        (some 1, 0, [.send entryFailS]) ∧
      myRssDispatch [(entryFailS, 5), (entryOkS, 6)] ⟨1, 0⟩ =
        ((myRssDispatch [(entryOkS, 6)] ⟨1, 0⟩).1,
          (myRssDispatch [(entryOkS, 6)] ⟨1, 0⟩).2.1,
          .send entryFailS :: (myRssDispatch [(entryOkS, 6)] ⟨1, 0⟩).2.2) :=
  ⟨c2_failure_stops_bot_not_myrss.1 entryFailS 5 [(entryOkS, 6)] (some 1)
      (by decide) (by decide),
    c2_failure_stops_bot_not_myrss.2 entryFailS 5 [(entryOkS, 6)] ⟨1, 0⟩ (by decide)⟩

/-- C3 counterexample: a single `feedOk []` event (a fetch that parses to an
empty feed) deletes the cursor of a source whose failure count is 0 — a
deletion that is not a quarantine eviction; and a single failed fetch of a
cursorless source creates a cursor record (with `last_date = now = 777`) — a
creation without any successful fetch.  Both contradict the claimed
lifecycle. -/
theorem c3_lifecycle_counterexample :
    myRssStep (some ⟨100, 0⟩) (.feedOk []) 500 = (none, 0) ∧
      myRssStep none .fetchFail 777 = (some ⟨777, 1⟩, 0) := by
  refine ⟨?_, ?_⟩ <;> decide

/-- C3 amended: in `my_rss_telegram.py` the cursor record of a source is
created by the first successful cold-start dispatch (not by a successful
fetch alone: a cold-start fetch whose single send fails leaves the source
cursorless), and also by failure bookkeeping when a fetch fails (storing
`now`); it is mutated by successful dispatches and by error counting; and it
is deleted not only when the failure count reaches 3 but also whenever a
fetch yields an empty feed (or a feed whose first entry has no valid date). -/
theorem c3_cursor_lifecycle :
    (∀ (now : Nat) (e : Entry), has_valid_date e = true → e.sendOk = true →
      myRssStep none (.feedOk [e]) now = (some ⟨latestDate e now, 0⟩, 1)) ∧
    (∀ (now : Nat) (e : Entry), has_valid_date e = true → e.sendOk = false →
      myRssStep none (.feedOk [e]) now = (none, 0)) ∧
    (∀ (now : Nat) (c : CursorRec), c.error_count = 0 →
      myRssStep (some c) .fetchFail now = (some ⟨c.last_date, 1⟩, 0)) ∧
    (∀ (now : Nat) (c : CursorRec), myRssStep (some c) (.feedOk []) now = (none, 0)) ∧
    (∀ now : Nat, myRssStep none .fetchFail now = (some ⟨now, 1⟩, 0)) := by
  refine ⟨?_, ?_, ?_, ?_, ?_⟩
  · intro now e hv hs
    simp [myRssStep, hv, hs]
  · intro now e hv hs
    simp [myRssStep, hv, hs]
  · intro now c h
    simp [myRssStep, h]
  · intro now c
    simp [myRssStep]
  · intro now
    simp [myRssStep]

/-- Witness for the C3 amended theorem at concrete inputs. -/
theorem c3_cursor_lifecycle_witness :
    myRssStep none (.feedOk [entryOkS]) 500 = (some ⟨latestDate entryOkS 500, 0⟩, 1) ∧
      myRssStep none (.feedOk [entryFailS]) 500 = (none, 0) ∧
      myRssStep (some ⟨100, 0⟩) .fetchFail 500 = (some ⟨100, 1⟩, 0) :=
  ⟨c3_cursor_lifecycle.1 500 entryOkS (by decide) (by decide),
    c3_cursor_lifecycle.2.1 500 entryFailS (by decide) (by decide),
    c3_cursor_lifecycle.2.2.1 500 ⟨100, 0⟩ (by decide)⟩

/-- C4 counterexample: the cursor of the source stands at `last_date = 100`;
one cycle returns an empty feed, which deletes the record; the next cycle
finds the source cursorless and cold-starts it from an entry dated 50, so
the commit stores `last_date = 50 < 100` — a committed cursor timestamp
strictly smaller than the one previously stored for the same source during
the same run. -/
theorem c4_regress_counterexample :
    myRssRun (some ⟨100, 0⟩) [.feedOk [], .feedOk [entryFresh]] 500 =
        (some ⟨50, 0⟩, 1) ∧ 50 < 100 := by
  refine ⟨?_, by decide⟩
  decide

/-- C4 amended: committed cursor timestamps are non-decreasing as long as the
source's cursor record persists.  Dispatching any ascending list of items
that all dominate the current cursor produces a non-decreasing chain of
commits starting at the current `last_date` — and the detector only ever
hands the dispatcher such lists (ascending, all strictly above the cursor).
Because the record is saved after every single commit, restarting from the
persisted file between two dispatches resumes from exactly the last committed
value, so the chain also covers crash-and-restart.  Only deletion of the
record (empty feed, invalid dates, or 3 errors) followed by re-creation can
make a later commit smaller. -/
theorem c4_commits_monotone :
    (∀ (l : List (Entry × Nat)) (c : CursorRec),
      List.Pairwise (fun a b => a.2 ≤ b.2) l →
      (∀ p ∈ l, c.last_date ≤ p.2) →
      List.Chain' (fun x y : Nat => x ≤ y)
        (c.last_date :: commitsOf (myRssDispatch l c).2.2)) ∧
    (∀ (entries : List Entry) (lastDate : Nat),
      List.Pairwise (fun a b => a.2 ≤ b.2) (myRssDetect entries lastDate)) ∧
    (∀ (entries : List Entry) (lastDate : Nat) (p : Entry × Nat),
      p ∈ myRssDetect entries lastDate → lastDate < p.2) := by
  refine ⟨fun l c => myRssDispatch_commits_chain l c, ?_, ?_⟩
  · intro entries lastDate
    unfold myRssDetect
    exact pairwise_sortByTs _
  · intro entries lastDate p hp
    obtain ⟨e, pd⟩ := p
    exact (mem_myRssDetect.mp hp).2.2.2

/-- Witness for the C4 amended theorem at concrete inputs. -/
theorem c4_commits_monotone_witness :
    List.Chain' (fun x y : Nat => x ≤ y)
      ((⟨1, 0⟩ : CursorRec).last_date ::
        commitsOf (myRssDispatch [(entryFailS, 5), (entryOkS, 6)] ⟨1, 0⟩).2.2) :=
  c4_commits_monotone.1 [(entryFailS, 5), (entryOkS, 6)] ⟨1, 0⟩
    (by decide) (by decide)

/-- C5 counterexample: three consecutive fetch failures delete the source's
record, yet the very next cycle still polls the source — it is still in the
static `RSS_FEEDS` list — finds it cursorless, cold-starts it and dispatches
an item (sent count 1).  Eviction is therefore not terminal for the running
process: no external reconfiguration was needed for the source to be polled
and delivered again. -/
theorem c5_eviction_not_terminal :
    myRssRun (some ⟨100, 0⟩) [.fetchFail, .fetchFail, .fetchFail] 500 = (none, 0) ∧
      myRssRun (some ⟨100, 0⟩)
        [.fetchFail, .fetchFail, .fetchFail, .feedOk [entryFresh]] 500 =
        (some ⟨50, 0⟩, 1) := by
  refine ⟨?_, ?_⟩ <;> decide

/-- C5 amended: exactly 3 consecutive recorded failures delete the source's
cursor record and failure count (2 leave it active with count 2, a following
success resets the count to 0 while keeping `last_date`), but the evicted
source stays in the polling list and is processed again on the next cycle as
a cursorless source — re-inclusion is automatic, not by external
reconfiguration. -/
theorem c5_quarantine_behavior :
    (∀ t now : Nat,
      myRssRun (some ⟨t, 0⟩) [.fetchFail, .fetchFail] now = (some ⟨t, 2⟩, 0)) ∧
    (∀ t now : Nat,
      myRssRun (some ⟨t, 0⟩) [.fetchFail, .fetchFail, .fetchFail] now = (none, 0)) ∧
    (∀ (t now : Nat) (e : Entry) (pd : Nat),
      has_valid_date e = true → entryDateMyRss e = some pd → pd ≤ t →
        myRssRun (some ⟨t, 2⟩) [.feedOk [e]] now = (some ⟨t, 0⟩, 0)) ∧
    (∀ (now : Nat) (e : Entry), has_valid_date e = true → e.sendOk = true →
      myRssStep none (.feedOk [e]) now = (some ⟨latestDate e now, 0⟩, 1)) := by
  refine ⟨?_, ?_, ?_, ?_⟩
  · intro t now
    simp [myRssRun, myRssStep]
  · intro t now
    simp [myRssRun, myRssStep]
  · intro t now e pd hv hd hle
    have hdet : myRssDetect [e] t = [] := by
      simp [myRssDetect, hv, hd, Nat.not_lt.mpr hle, sortByTs]
    simp [myRssRun, myRssStep, hv, hdet, myRssDispatch]
  · intro now e hv hs
    simp [myRssStep, hv, hs]

/-- Witness for the C5 amended theorem at concrete inputs. -/
theorem c5_quarantine_behavior_witness :
    myRssRun (some ⟨1000, 0⟩) [.fetchFail, .fetchFail] 500 = (some ⟨1000, 2⟩, 0) ∧
      myRssRun (some ⟨1000, 0⟩) [.fetchFail, .fetchFail, .fetchFail] 500 = (none, 0) ∧
      myRssRun (some ⟨1000, 2⟩) [.feedOk [entryOld]] 500 = (some ⟨1000, 0⟩, 0) ∧
      myRssStep none (.feedOk [entryOkS]) 500 = (some ⟨latestDate entryOkS 500, 0⟩, 1) :=
  ⟨c5_quarantine_behavior.1 1000 500,
    c5_quarantine_behavior.2.1 1000 500,
    c5_quarantine_behavior.2.2.1 1000 500 entryOld 1000 (by decide) (by decide) (by decide),
    c5_quarantine_behavior.2.2.2 500 entryOkS (by decide) (by decide)⟩

/-- C6 counterexample: first observation of a source (no cursor) in `bot.py`
with window 86400 at `now = 200000`, the only item dated 1000 (older than the
window).  The detected list is empty and nothing is dispatched — but no
cursor is initialized either: the resulting state is `none`, not the most
recent item's timestamp `some 50` or `some 1000` as the claim requires. -/
theorem c6_cold_start_counterexample :
    botProcessFeed none [entryFresh] 200000 86400 = (none, 0, []) ∧
      (botProcessFeed none [entryFresh] 200000 86400).1 ≠ some 50 := by
  refine ⟨?_, ?_⟩ <;> decide

/-- C6 amended: on a cursorless source whose fetched items are all at least
one window older than `now`, `bot.py` detects nothing, dispatches nothing,
and writes no cursor at all — the source stays cursorless (it is not
initialized to the most recent item's timestamp; no identity is ever
stored). -/
theorem c6_cold_start_no_commit :
    ∀ (es : List Entry) (now window : Nat),
      (∀ e ∈ es, botEntryDate e now ≤ now - window) →
      botProcessFeed none es now window = (none, 0, []) := by
  intro es now window h
  have hdet : botDetect es (now - window) now = [] := by
    unfold botDetect
    have : es.filterMap (fun e =>
        let d := botEntryDate e now
        if now - window < d then some (e, d) else none) = [] :=
      List.filterMap_eq_nil_iff.mpr fun a ha => by simp [Nat.not_lt.mpr (h a ha)]
    rw [this]
    rfl
  simp [botProcessFeed, hdet, botDispatch]

/-- Witness for the C6 amended theorem at a concrete input. -/
theorem c6_cold_start_no_commit_witness :
    botProcessFeed none [entryFresh, entryOkS] 200000 86400 = (none, 0, []) :=
  c6_cold_start_no_commit [entryFresh, entryOkS] 200000 86400 (by decide)

/-- C7: both novelty detectors return their new items sorted ascending by
timestamp (each adjacent pair is non-decreasing), so downstream delivery
processes the oldest new item first and cursor commits advance in order. -/
theorem c7_detect_sorted :
    ∀ (entries : List Entry) (lastDate threshold now : Nat),
      List.Chain' (fun a b => a.2 ≤ b.2) (myRssDetect entries lastDate) ∧
      List.Chain' (fun a b => a.2 ≤ b.2) (botDetect entries threshold now) := by
  intro entries lastDate threshold now
  constructor
  · unfold myRssDetect
    exact chain'_sortByTs _
  · unfold botDetect
    exact chain'_sortByTs _

/-- C8 counterexample: after the successful dispatch of an item,
`my_rss_telegram.py`'s trace is send, commit, then `time.sleep(10)` — the
inter-item delay is the fixed constant 10 and no uniform-random draw occurs
anywhere in the trace, contradicting "drawn uniformly at random from a
configured interval" and "never a fixed constant". -/
theorem c8_fixed_delay_counterexample :
    (myRssDispatch [(entryOkS, 6)] ⟨1, 0⟩).2.2 =
        [.send entryOkS, .commit 6, .sleepFixed 10] ∧
      ((myRssDispatch [(entryOkS, 6)] ⟨1, 0⟩).2.2.filter isUniformSleep) = [] ∧
      ((myRssDispatch [(entryOkS, 6)] ⟨1, 0⟩).2.2.filter isFixedSleep) =
        [.sleepFixed 10] := by
  refine ⟨?_, ?_, ?_⟩ <;> decide

/-- C8 amended: after a successful dispatch, `my_rss_telegram.py` commits the
item's timestamp immediately and then sleeps a fixed 10 seconds before the
next item (no randomness); `bot.py` draws a uniform random 15-25 second sleep
inside `send_to_telegram` itself — i.e. before the commit, not after it — and
the interval is hardcoded, independent of the configured
`REQUEST_DELAY_MIN`/`REQUEST_DELAY_MAX` (those only pace successive feeds). -/
theorem c8_dispatch_delay :
    (∀ (e : Entry) (pd : Nat) (rest : List (Entry × Nat)) (c : CursorRec),
      e.sendOk = true →
        (myRssDispatch ((e, pd) :: rest) c).2.2 =
          .send e :: .commit pd :: .sleepFixed 10 ::
            (myRssDispatch rest ⟨pd, 0⟩).2.2) ∧
    (∀ (e : Entry) (pd : Nat) (rest : List (Entry × Nat)) (st : Option Nat),
      e.link ≠ "" → e.sendOk = true →
        (botDispatch ((e, pd) :: rest) st).2.2 =
          .send e :: .sleepUniform 15 25 :: .commit pd ::
            (botDispatch rest (some pd)).2.2) := by
  constructor
  · intro e pd rest c h
    simp [myRssDispatch, h]
  · intro e pd rest st h1 h2
    simp [botDispatch, h1, h2]

/-- Witness for the C8 amended theorem at concrete inputs. -/
theorem c8_dispatch_delay_witness :
    (myRssDispatch [(entryOkS, 6)] ⟨1, 0⟩).2.2 =
        .send entryOkS :: .commit 6 :: .sleepFixed 10 ::
          (myRssDispatch [] (⟨6, 0⟩ : CursorRec)).2.2 ∧
      (botDispatch [(entryOkS, 6)] (some 1)).2.2 =
        .send entryOkS :: .sleepUniform 15 25 :: .commit 6 ::
          (botDispatch [] (some 6)).2.2 :=
  ⟨c8_dispatch_delay.1 entryOkS 6 [] ⟨1, 0⟩ (by decide),
    c8_dispatch_delay.2 entryOkS 6 [] (some 1) (by decide) (by decide)⟩

/-- C9: fetch returns no usable item list exactly when every retrieval
strategy fails or yields zero items, and otherwise returns the first
successful strategy's list.  For `bot.py`'s `parse_feed` (one strategy,
which may raise — `none` — or parse to a list) the result is `None` iff the
strategy failed or parsed zero items.  For `my_rss_telegram.py`'s
`parse_feed_with_fallback` the plain parse is kept when non-empty; otherwise
the first applicable encoding attempt that parses non-empty is returned, and
when every strategy fails or parses empty the function hands back an empty
feed (the empty-result case of FetchError). -/
theorem c9_fetch_first_success :
    (∀ s : Option (List Entry), parse_feed s = none ↔ (s = none ∨ s = some [])) ∧
    (∀ (s : Option (List Entry)) (l : List Entry),
      parse_feed s = some l ↔ (s = some l ∧ l ≠ [])) ∧
    (∀ (s1 : List Entry) (encs : List (Option (List Entry))) (l : List Entry),
      specFirstSuccess s1 encs = some l →
        parse_feed_with_fallback s1 encs = l ∧ l ≠ []) ∧
    (∀ (s1 : List Entry) (encs : List (Option (List Entry))),
      specFirstSuccess s1 encs = none → parse_feed_with_fallback s1 encs = []) ∧
    (∀ (s1 : List Entry) (encs : List (Option (List Entry))),
      specFirstSuccess s1 encs = none ↔
        (s1 = [] ∧ ∀ o ∈ encs, ∀ l, o = some l → l = [])) := by
  refine ⟨?_, ?_, ?_, ?_, ?_⟩
  · intro s
    cases s with
    | none => simp [parse_feed]
    | some l => cases l <;> simp [parse_feed]
  · intro s l
    cases s with
    | none => simp [parse_feed]
    | some l' =>
      cases l' with
      | nil => simp [parse_feed]
      | cons a t =>
        simp only [parse_feed, List.isEmpty_cons, Bool.false_eq_true, if_false,
          Option.some_inj]
        constructor
        · rintro rfl
          exact ⟨rfl, by simp⟩
        · rintro ⟨h, _⟩
          exact h
  · intro s1 encs l h
    cases s1 with
    | nil =>
      simp only [specFirstSuccess, List.isEmpty_nil, if_true] at h
      simp only [parse_feed_with_fallback, List.isEmpty_nil, if_true]
      exact encLoop_of_encsFirst_some h
    | cons a t =>
      simp only [specFirstSuccess, List.isEmpty_cons, Bool.false_eq_true, if_false,
        Option.some_inj] at h
      subst h
      exact ⟨by simp [parse_feed_with_fallback], by simp⟩
  · intro s1 encs h
    cases s1 with
    | nil =>
      simp only [specFirstSuccess, List.isEmpty_nil, if_true] at h
      simp only [parse_feed_with_fallback, List.isEmpty_nil, if_true]
      exact encLoop_of_encsFirst_none h
    | cons a t =>
      simp [specFirstSuccess] at h
  · intro s1 encs
    cases s1 with
    | nil =>
      simp only [specFirstSuccess, List.isEmpty_nil, if_true, true_and]
      exact encsFirst_eq_none_iff
    | cons a t =>
      simp [specFirstSuccess]

/-- Witness for the C9 theorem at concrete inputs. -/
theorem c9_fetch_first_success_witness :
    (parse_feed (some [entryOkS]) = some [entryOkS] ∧ [entryOkS] ≠ []) ∧
      (parse_feed_with_fallback [] [none, some [entryOkS]] = [entryOkS] ∧
        [entryOkS] ≠ []) ∧
      parse_feed_with_fallback [] [some []] = [] :=
  ⟨⟨(c9_fetch_first_success.2.1 (some [entryOkS]) [entryOkS]).mpr
      ⟨rfl, by decide⟩, by decide⟩,
    c9_fetch_first_success.2.2.1 [] [none, some [entryOkS]] [entryOkS] (by decide),
    c9_fetch_first_success.2.2.2.1 [] [some []] (by decide)⟩

/-- C10: in `bot.py`'s dispatch loop an entry with a missing or empty link is
skipped silently — the loop behaves exactly as if the entry were absent, so
it is neither sent nor committed and the following entries are still
processed; concretely, after a link-less entry dated 5 the next entry dated 6
is sent and committed even though the earlier entry was never delivered. -/
theorem c10_linkless_skip :
    (∀ (e : Entry) (pd : Nat) (rest : List (Entry × Nat)) (st : Option Nat),
      e.link = "" → botDispatch ((e, pd) :: rest) st = botDispatch rest st) ∧
    botDispatch [(entryNoLink, 5), (entryOkS, 6)] (some 1) =
      (some 6, 1, [.send entryOkS, .sleepUniform 15 25, .commit 6]) := by
  constructor
  · intro e pd rest st h
    simp [botDispatch, h]
  · decide

/-- Witness for the C10 theorem at a concrete input. -/
theorem c10_linkless_skip_witness :
    botDispatch [(entryNoLink, 5)] (some 1) = botDispatch [] (some 1) :=
  c10_linkless_skip.1 entryNoLink 5 [] (some 1) (by decide)
